import Mathlib

/-!
Shallow embedding of the Realtime-Dashboard WebSocket bridge.

Client side: `src/src/services/websocket.ts` (class `WebSocketService`).
Server side: `src/server.js` (the `wsServer.on('connection')` handler and
its per-connection upstream bridge).

Stateful TypeScript methods become explicit state-passing functions
`WSService → WSService × List Effect`; the `Effect` trace records every
externally observable action (frames sent on the socket, handler and
status-observer invocations, timers scheduled, sockets created or closed).
Handler callbacks are abstracted to opaque tokens; the two fan-out loops
that care about a callback throwing are modelled separately with an
explicit throws flag per handler.
-/

namespace RealtimeDashboard

/-- Connection status values used by `lastConnectionStatus` and the
`connection` envelopes: connected, disconnected or error. -/
inductive ConnStatus
  | connected
  | disconnected
  | error
deriving DecidableEq, Repr

/-- Parsed inbound envelope as seen by `ws.onmessage`: the `type`
discriminator string and the `status` field used by `connection` frames. -/
structure InMsg where
  msgType : String
  status : ConnStatus := ConnStatus.disconnected
deriving DecidableEq, Repr

/-- Outbound control frames the client sends with `ws.send(JSON.stringify(...))`. -/
inductive ClientFrame
  | subscribe (sessionId : String)
  | ping
deriving DecidableEq, Repr

/-- Observable actions of the client bridge, in program order. -/
inductive Effect
  | send (f : ClientFrame)
  | notify (handlerId : String) (st : ConnStatus)
  | invokeHandler (handlerId : String) (m : InMsg)
  | scheduleReconnect (delayMs : Nat)
  | closeSocket
  | createSocket (url : String)
deriving DecidableEq, Repr

/-- State of the `WebSocketService` instance: one field per mutable private
field of the TypeScript class. Timer handles become booleans (a handle is
held iff the flag is set); the physical socket becomes the pair
`wsPresent` (ws is not null) and `wsOpen` (ws.readyState is OPEN); the two
`Map` registries become association lists in insertion order with opaque
callback tokens; `pendingSubscriptions` is a JS `Set`, i.e. an
insertion-ordered list without duplicates. -/
structure WSService where
  wsPresent : Bool := false
  wsOpen : Bool := false
  heartbeatActive : Bool := false
  connectTimeoutActive : Bool := false
  handlerIdCounter : Nat := 0
  messageHandlers : List (String × Nat) := []
  connectionStatusHandlers : List (String × Nat) := []
  connectionState : Bool := false
  timingServiceState : Bool := false
  lastConnectionStatus : ConnStatus := ConnStatus.disconnected
  currentSessionId : Option String := none
  reconnectAttempts : Nat := 0
  isConnecting : Bool := false
  pendingSubscriptions : List String := []
deriving DecidableEq, Repr

/-- `maxReconnectAttempts = 5` in the class. -/
def maxReconnectAttempts : Nat := 5

/-- `reconnectDelay = 1000` (ms) in the class. -/
def reconnectDelay : Nat := 1000

/-- `baseUrl` in the class. -/
def baseUrl : String := "ws://localhost:8000/ws/sessions"

/-- `getWebSocketUrl`: the sentinel id global maps to the bare base URL,
any other id is appended as a path segment. -/
def getWebSocketUrl (sessionId : String) : String :=
  if sessionId = "global" then baseUrl else baseUrl ++ "/" ++ sessionId

/-- JS `Set.add`: appends the element unless already present. -/
def insertPending (l : List String) (x : String) : List String :=
  if x ∈ l then l else l ++ [x]

/-- `notifyConnectionStatus`: when the status-handler map is non-empty,
invoke every status handler with a connection envelope carrying `st`.
State is unchanged; the per-handler throw behaviour of this loop is
modelled by `fanOutStatusHandlers` below. -/
def notifyConnectionStatus (s : WSService) (st : ConnStatus) : List Effect :=
  if s.connectionStatusHandlers ≠ [] then
    s.connectionStatusHandlers.map (fun p => Effect.notify p.1 st)
  else []

/-- `sendSubscription`: send the subscribe frame when a socket exists and
is open, otherwise defer the session id into `pendingSubscriptions`. -/
def sendSubscription (s : WSService) (sessionId : String) :
    WSService × List Effect :=
  if s.wsPresent && s.wsOpen then
    (s, [Effect.send (ClientFrame.subscribe sessionId)])
  else
    ({ s with pendingSubscriptions := insertPending s.pendingSubscriptions sessionId }, [])

/-- `handleOpen`: the open event fires when the socket enters the OPEN
ready state, so the model sets `wsOpen` here; the method then marks the
transport connected, resets the retry counter, notifies observers
connected, clears `isConnecting`, starts the heartbeat, and sends one
subscribe frame for `currentSessionId` when it is set (the code comment
says pending subscriptions are sent here, but only `currentSessionId` is). -/
def handleOpen (s : WSService) : WSService × List Effect :=
  let s1 := { s with wsOpen := true, connectionState := true,
                     reconnectAttempts := 0,
                     lastConnectionStatus := ConnStatus.connected }
  let e1 := notifyConnectionStatus s1 ConnStatus.connected
  let s2 := { s1 with isConnecting := false, heartbeatActive := true }
  match s2.currentSessionId with
  | some sid =>
      let (s3, e2) := sendSubscription s2 sid
      (s3, e1 ++ e2)
  | none => (s2, e1)

/-- `handleClose`: mark transport and feed down, notify disconnected, and
when the retry budget is not exhausted increment `reconnectAttempts` and
schedule a reconnect after `reconnectDelay * 2 ^ (reconnectAttempts - 1)` ms. -/
def handleClose (s : WSService) : WSService × List Effect :=
  let s1 := { s with connectionState := false, timingServiceState := false,
                     lastConnectionStatus := ConnStatus.disconnected }
  let e1 := notifyConnectionStatus s1 ConnStatus.disconnected
  if s1.reconnectAttempts < maxReconnectAttempts then
    let s2 := { s1 with reconnectAttempts := s1.reconnectAttempts + 1 }
    (s2, e1 ++ [Effect.scheduleReconnect (reconnectDelay * 2 ^ (s2.reconnectAttempts - 1))])
  else
    (s1, e1)

/-- `handleConnectionError`: like `handleClose` but with status error, and
when the budget is exhausted it notifies error a second time. -/
def handleConnectionError (s : WSService) : WSService × List Effect :=
  let s1 := { s with connectionState := false, timingServiceState := false,
                     lastConnectionStatus := ConnStatus.error }
  let e1 := notifyConnectionStatus s1 ConnStatus.error
  if s1.reconnectAttempts < maxReconnectAttempts then
    let s2 := { s1 with reconnectAttempts := s1.reconnectAttempts + 1 }
    (s2, e1 ++ [Effect.scheduleReconnect (reconnectDelay * 2 ^ (s2.reconnectAttempts - 1))])
  else
    (s1, e1 ++ notifyConnectionStatus s1 ConnStatus.error)

/-- `clearIntervals`: release both timer handles. -/
def clearIntervals (s : WSService) : WSService :=
  { s with heartbeatActive := false, connectTimeoutActive := false }

/-- `connect`: guarded by `isConnecting` and by the presence of a session
id; closes any existing socket, clears timers, resets transport state,
notifies disconnected, then creates a fresh socket (not yet open) and arms
the 5 second connection timeout. -/
def connect (s : WSService) : WSService × List Effect :=
  if s.isConnecting then (s, [])
  else
    match s.currentSessionId with
    | none => (s, [])
    | some sid =>
        let s1 := { s with isConnecting := true }
        let e0 := if s1.wsPresent then [Effect.closeSocket] else []
        let s2 := { (clearIntervals s1) with
                      connectionState := false, timingServiceState := false,
                      lastConnectionStatus := ConnStatus.disconnected }
        let e1 := notifyConnectionStatus s2 ConnStatus.disconnected
        let s3 := { s2 with wsPresent := true, wsOpen := false,
                            connectTimeoutActive := true }
        (s3, e0 ++ e1 ++ [Effect.createSocket (getWebSocketUrl sid)])

/-- The reconnect `setTimeout` callback installed by `handleClose` and
`handleConnectionError`: call `connect` only when the transport is down, a
session id is still set, and no connect attempt is in flight. -/
def reconnectTimerFire (s : WSService) : WSService × List Effect :=
  if !s.connectionState && s.currentSessionId.isSome && !s.isConnecting then
    connect s
  else (s, [])

/-- `disconnect`: clear timers, reset the retry counter and the connecting
flag, empty `pendingSubscriptions`, close and drop the socket when one is
present, reset transport and feed flags, notify observers disconnected,
null the session id and clear the message-handler map. The status-handler
map is left untouched by the method. -/
def disconnect (s : WSService) : WSService × List Effect :=
  let s1 := { (clearIntervals s) with
                reconnectAttempts := 0, isConnecting := false,
                pendingSubscriptions := [] }
  let e0 := if s1.wsPresent then [Effect.closeSocket] else []
  let s2 := { s1 with wsPresent := false, wsOpen := false,
                      connectionState := false, timingServiceState := false,
                      lastConnectionStatus := ConnStatus.disconnected }
  let e1 := notifyConnectionStatus s2 ConnStatus.disconnected
  (({ s2 with currentSessionId := none, messageHandlers := [] }), e0 ++ e1)

/-- `subscribeToTiming`: mint the next handler id, register the callback
token, set `currentSessionId` for non-global subscriptions, send or queue
the subscribe frame, and connect when no open socket exists. Returns the
generated handler id last. -/
def subscribeToTiming (s : WSService) (sessionId : String) (tok : Nat) :
    WSService × List Effect × String :=
  let n := s.handlerIdCounter + 1
  let handlerId := "timing_" ++ toString n
  let s1 := { s with handlerIdCounter := n,
                     messageHandlers := s.messageHandlers ++ [(handlerId, tok)] }
  let s2 := if sessionId ≠ "global" then { s1 with currentSessionId := some sessionId } else s1
  let (s3, e1) := sendSubscription s2 sessionId
  if !(s3.wsPresent && s3.wsOpen) then
    let (s4, e2) := connect s3
    (s4, (e1 ++ e2, handlerId))
  else (s3, (e1, handlerId))

/-- `onConnectionStatus`: register a status handler under the given id and
invoke it immediately with the current known status. -/
def onConnectionStatus (s : WSService) (messageId : String) (tok : Nat) :
    WSService × List Effect :=
  ({ s with connectionStatusHandlers := s.connectionStatusHandlers ++ [(messageId, tok)] },
   [Effect.notify messageId s.lastConnectionStatus])

/-- `removeHandler`: delete the id from both registries (JS `Map.delete`,
a no-op when the key is absent). -/
def removeHandler (s : WSService) (messageId : String) : WSService :=
  { s with messageHandlers := s.messageHandlers.filter (fun p => p.1 ≠ messageId),
           connectionStatusHandlers :=
             s.connectionStatusHandlers.filter (fun p => p.1 ≠ messageId) }

/-- `isConnected`: conjunction of the raw transport flag and the feed
liveness flag. -/
def isConnected (s : WSService) : Bool :=
  s.connectionState && s.timingServiceState

/-- The `ws.onmessage` dispatch on the parsed message type: pong, error and
connection update the liveness flags and notify observers; result and
session_update additionally fan the envelope out to every message handler;
any other type falls through the switch with no action. -/
def onMessage (s : WSService) (m : InMsg) : WSService × List Effect :=
  if m.msgType = "pong" then
    let s1 := { s with timingServiceState := true,
                       lastConnectionStatus := ConnStatus.connected }
    (s1, notifyConnectionStatus s1 ConnStatus.connected)
  else if m.msgType = "error" then
    let s1 := { s with timingServiceState := false,
                       lastConnectionStatus := ConnStatus.error }
    (s1, notifyConnectionStatus s1 ConnStatus.error)
  else if m.msgType = "connection" then
    let s1 := { s with timingServiceState := (m.status = ConnStatus.connected),
                       lastConnectionStatus := m.status }
    (s1, notifyConnectionStatus s1 m.status)
  else if m.msgType = "result" ∨ m.msgType = "session_update" then
    let s1 := { s with timingServiceState := true,
                       lastConnectionStatus := ConnStatus.connected }
    let e1 := notifyConnectionStatus s1 ConnStatus.connected
    (s1, e1 ++ s1.messageHandlers.map (fun p => Effect.invokeHandler p.1 m))
  else (s, [])

/-- Subscribe frames among a list of effects, in emission order. -/
def sentSubscribes (es : List Effect) : List String :=
  es.filterMap (fun e =>
    match e with
    | Effect.send (ClientFrame.subscribe sid) => some sid
    | _ => none)

/-- Reconnect delays scheduled among a list of effects, in emission order. -/
def scheduledDelays (es : List Effect) : List Nat :=
  es.filterMap (fun e =>
    match e with
    | Effect.scheduleReconnect d => some d
    | _ => none)

/-! ### Fan-out loops with per-handler throw behaviour

The two fan-out loops of `websocket.ts` differ in exception handling.
The `result` and `session_update` branch of `ws.onmessage` wraps each
`handler(message)` call in its own try/catch, so a throwing handler is
logged and iteration continues. The `forEach` inside
`notifyConnectionStatus` has no such wrapper, so a throwing status handler
propagates out of `forEach` and ends the iteration. Each handler is a pair
of its id and a flag saying whether its callback throws; the result is the
list of ids actually invoked, in registration order. -/

/-- Fan-out of `messageHandlers.forEach` (onmessage, result and
session_update case): the catch swallows a throw, so every handler is
invoked regardless of the throws flags. -/
def fanOutMessageHandlers : List (String × Bool) → List String
  | [] => []
  | h :: rest => h.1 :: fanOutMessageHandlers rest

/-- Fan-out of `connectionStatusHandlers.forEach` inside
`notifyConnectionStatus`: no try/catch around the call, so a handler that
throws is invoked but aborts the iteration before the remaining handlers. -/
def fanOutStatusHandlers : List (String × Bool) → List String
  | [] => []
  | h :: rest => if h.2 then [h.1] else h.1 :: fanOutStatusHandlers rest

/-! ### Server bridge (`src/server.js`) -/

/-- Frames the server sends to a client socket. A frame forwarded from the
upstream timing socket is sent as the raw received data (`ws.send(data)`),
kept distinct from the JSON envelopes the server builds itself. -/
inductive SrvFrame
  | raw (data : String)
  | errorEnvelope (message : String)
  | pingFrame
  | connectionFrame (status : ConnStatus)
deriving DecidableEq, Repr

/-- Observable actions of the per-connection server bridge. -/
inductive ServerEffect
  | sendToClient (f : SrvFrame)
  | sendToUpstream (data : String)
  | closeClient
  | openUpstream (url : String)
deriving DecidableEq, Repr

/-- The message type string carried by each server-built envelope. -/
def srvFrameType : SrvFrame → String
  | SrvFrame.raw _ => ""
  | SrvFrame.errorEnvelope _ => "error"
  | SrvFrame.pingFrame => "ping"
  | SrvFrame.connectionFrame _ => "connection"

/-- Per-connection mutable fields of `connectionInfo` used by the handlers
modelled here. -/
structure BridgeConn where
  lastPing : Nat := 0
  reconnectAttempts : Nat := 0
deriving DecidableEq, Repr

/-- `HEARTBEAT_INTERVAL` (ms) in server.js. -/
def HEARTBEAT_INTERVAL : Nat := 30000

/-- Outcome of the `wsServer.on('connection')` handler up to the creation
of the upstream socket. -/
structure ConnOutcome where
  sentFrames : List SrvFrame
  clientClosed : Bool
  upstreamOpened : Option String
  heartbeatStarted : Bool
deriving DecidableEq, Repr

/-- JS `String.prototype.split` with a one-character separator, on the
character list of the string: always yields at least one (possibly empty)
segment. -/
def splitOnChar (sep : Char) : List Char → List (List Char)
  | [] => [[]]
  | c :: rest =>
      let r := splitOnChar sep rest
      if c = sep then [] :: r
      else
        match r with
        | [] => [[c]]
        | seg :: segs => (c :: seg) :: segs

/-- JS `req.url.split(sep).pop()`: the last segment of the split. `split`
on a string always yields a non-empty array, so `pop` yields a string,
falsy exactly when empty. -/
def extractSessionId (url : String) : String :=
  String.mk ((splitOnChar '/' url.data).getLastD [])

/-- The connection handler of server.js: extract the session id from the
request path; when it is falsy, send a structured error envelope and close
the client without opening an upstream socket or starting the heartbeat;
otherwise register the connection, start the 30 s heartbeat and open one
upstream socket to the timing provider for that session. -/
def wsConnectionHandler (url : String) : ConnOutcome :=
  let sessionId := extractSessionId url
  if sessionId = "" then
    { sentFrames := [SrvFrame.errorEnvelope "No session ID provided"],
      clientClosed := true, upstreamOpened := none, heartbeatStarted := false }
  else
    { sentFrames := [], clientClosed := false,
      upstreamOpened := some ("ws://dev-sample-api.tsl-timing.com/sessions/" ++ sessionId),
      heartbeatStarted := true }

/-- The `tslWs.on('message')` handler: forward the received data to the
client verbatim (the very `data` value, not its re-serialization) when the
client socket is open, otherwise drop it. -/
def tslOnMessage (clientOpen : Bool) (data : String) : List ServerEffect :=
  if clientOpen then [ServerEffect.sendToClient (SrvFrame.raw data)] else []

/-- The `ws.on('message')` handler for client frames: parse the data
(`none` models a JSON.parse failure, which is caught and logged); a frame
of type pong refreshes `lastPing`; every other frame, and a parse failure,
leaves the connection untouched. Nothing is ever sent to the upstream
socket. -/
def clientOnMessage (conn : BridgeConn) (now : Nat) (parsed : Option InMsg) :
    BridgeConn × List ServerEffect :=
  match parsed with
  | some m =>
      if m.msgType = "pong" then ({ conn with lastPing := now }, [])
      else (conn, [])
  | none => (conn, [])

/-- The heartbeat `setInterval` callback: while the client socket is open,
send a ping envelope and refresh `lastPing`. -/
def serverHeartbeatTick (conn : BridgeConn) (clientOpen : Bool) (now : Nat) :
    BridgeConn × List ServerEffect :=
  if clientOpen then
    ({ conn with lastPing := now }, [ServerEffect.sendToClient SrvFrame.pingFrame])
  else (conn, [])

/-! ### Helper lemmas and concrete states -/

/-- Status notification emits no reconnect scheduling. -/
theorem scheduledDelays_notifyConnectionStatus (s : WSService) (st : ConnStatus) :
    scheduledDelays (notifyConnectionStatus s st) = [] := by
  unfold notifyConnectionStatus scheduledDelays
  split
  · simp
  · rfl

/-- Scheduled delays distribute over effect-list concatenation. -/
theorem scheduledDelays_append (a b : List Effect) :
    scheduledDelays (a ++ b) = scheduledDelays a ++ scheduledDelays b :=
  List.filterMap_append a b _

/-- A single scheduling effect yields its delay. -/
theorem scheduledDelays_single (d : Nat) :
    scheduledDelays [Effect.scheduleReconnect d] = [d] := rfl

/-- The default initial service state. -/
def emptyService : WSService := {}

/-- A state whose retry budget is exhausted. -/
def serviceAtMaxRetries : WSService := { reconnectAttempts := 5 }

/-- A state with one registered status observer. -/
def serviceWithObserver : WSService := { connectionStatusHandlers := [("obs", 0)] }

/-- A state with one status observer and a live socket. -/
def serviceObserverAndSocket : WSService :=
  { wsPresent := true, connectionStatusHandlers := [("obs", 7)] }

/-- The message types handled by the `ws.onmessage` switch. -/
def handledTypes : List String := ["pong", "error", "connection", "result", "session_update"]

/-! ### Claims -/

/-- C3: when `reconnectAttempts < 5`, both the close handler and the error
handler schedule exactly one reconnect, `reconnectDelay * 2 ^ n-1` ms after
the trigger where n is the incremented attempt counter, and increment the
counter; once the budget is exhausted neither handler schedules anything. -/
theorem c3_reconnect_backoff (s t : WSService)
    (h : s.reconnectAttempts < maxReconnectAttempts)
    (ht : maxReconnectAttempts ≤ t.reconnectAttempts) :
    scheduledDelays (handleClose s).2 = [reconnectDelay * 2 ^ s.reconnectAttempts]
    ∧ (handleClose s).1.reconnectAttempts = s.reconnectAttempts + 1
    ∧ scheduledDelays (handleConnectionError s).2
        = [reconnectDelay * 2 ^ s.reconnectAttempts]
    ∧ (handleConnectionError s).1.reconnectAttempts = s.reconnectAttempts + 1
    ∧ scheduledDelays (handleClose t).2 = []
    ∧ scheduledDelays (handleConnectionError t).2 = [] := by
  have hnt : ¬ t.reconnectAttempts < maxReconnectAttempts := Nat.not_lt.mpr ht
  refine ⟨?_, ?_, ?_, ?_, ?_, ?_⟩ <;>
    simp [handleClose, handleConnectionError, h, hnt, scheduledDelays_append,
      scheduledDelays_notifyConnectionStatus, scheduledDelays_single]

/-- C3 witness: concrete instantiation at the initial state and an
exhausted state. -/
theorem c3_reconnect_backoff_witness :
    scheduledDelays (handleClose emptyService).2
        = [reconnectDelay * 2 ^ emptyService.reconnectAttempts]
    ∧ (handleClose emptyService).1.reconnectAttempts
        = emptyService.reconnectAttempts + 1
    ∧ scheduledDelays (handleConnectionError emptyService).2
        = [reconnectDelay * 2 ^ emptyService.reconnectAttempts]
    ∧ (handleConnectionError emptyService).1.reconnectAttempts
        = emptyService.reconnectAttempts + 1
    ∧ scheduledDelays (handleClose serviceAtMaxRetries).2 = []
    ∧ scheduledDelays (handleConnectionError serviceAtMaxRetries).2 = [] :=
  c3_reconnect_backoff emptyService serviceAtMaxRetries (by decide) (by decide)

/-- C4: `isConnected` is the conjunction of the socket-open flag and the
feed-liveness flag; a pong, result or session_update frame sets feed
liveness true; the open event never changes the feed-liveness flag, so it
alone never sets it true. -/
theorem c4_liveness_conjunction (s : WSService) (m : InMsg)
    (hm : m.msgType = "pong" ∨ m.msgType = "result" ∨ m.msgType = "session_update") :
    isConnected s = (s.connectionState && s.timingServiceState)
    ∧ (onMessage s m).1.timingServiceState = true
    ∧ (handleOpen s).1.timingServiceState = s.timingServiceState := by
  refine ⟨rfl, ?_, ?_⟩
  · rcases hm with h | h | h <;> simp [onMessage, h]
  · by_cases hw : s.wsPresent <;>
      cases h : s.currentSessionId <;>
        simp [handleOpen, h, sendSubscription, hw]

/-- C4 witness: a pong on the initial state. -/
theorem c4_liveness_conjunction_witness :
    isConnected emptyService
        = (emptyService.connectionState && emptyService.timingServiceState)
    ∧ (onMessage emptyService
        { msgType := "pong", status := ConnStatus.disconnected }).1.timingServiceState = true
    ∧ (handleOpen emptyService).1.timingServiceState
        = emptyService.timingServiceState :=
  c4_liveness_conjunction emptyService
    { msgType := "pong", status := ConnStatus.disconnected } (Or.inl rfl)

/-- C7: a reconnect timer that fires after `disconnect` has returned is a
complete no-op: the state is unchanged and no effect (no handler call, no
socket creation) is produced, because `disconnect` nulled the session id
that the timer callback checks. -/
theorem c7_late_timer_noop (s : WSService) :
    reconnectTimerFire (disconnect s).1 = ((disconnect s).1, []) := by
  simp [disconnect, clearIntervals, reconnectTimerFire]

/-- C8: when the request path yields no session id the server sends the
structured error envelope and closes the client, opening no upstream
socket and starting no heartbeat; and on every request path the handler
either closes the client or opens an upstream socket. -/
theorem c8_missing_session_failfast (url url2 : String)
    (h : extractSessionId url = "") :
    (wsConnectionHandler url).sentFrames = [SrvFrame.errorEnvelope "No session ID provided"]
    ∧ (wsConnectionHandler url).clientClosed = true
    ∧ (wsConnectionHandler url).upstreamOpened = none
    ∧ (wsConnectionHandler url).heartbeatStarted = false
    ∧ ((wsConnectionHandler url2).clientClosed = true
        ∨ (wsConnectionHandler url2).upstreamOpened.isSome = true) := by
  refine ⟨?_, ?_, ?_, ?_, ?_⟩ <;> unfold wsConnectionHandler
  · simp [h]
  · simp [h]
  · simp [h]
  · simp [h]
  · by_cases h2 : extractSessionId url2 = "" <;> simp [h2]

/-- C8 witness: the path with an empty trailing segment and a normal
session path. -/
theorem c8_missing_session_failfast_witness :
    (wsConnectionHandler "/ws/sessions/").sentFrames
        = [SrvFrame.errorEnvelope "No session ID provided"]
    ∧ (wsConnectionHandler "/ws/sessions/").clientClosed = true
    ∧ (wsConnectionHandler "/ws/sessions/").upstreamOpened = none
    ∧ (wsConnectionHandler "/ws/sessions/").heartbeatStarted = false
    ∧ ((wsConnectionHandler "/ws/sessions/42").clientClosed = true
        ∨ (wsConnectionHandler "/ws/sessions/42").upstreamOpened.isSome = true) :=
  c8_missing_session_failfast "/ws/sessions/" "/ws/sessions/42" (by decide)

/-- C9: removing a handler id twice equals removing it once, and removal
of id x keeps every entry registered under any other id y in both
registries (removal is also total, hence never an error). -/
theorem c9_removeHandler_idempotent (s : WSService) (x y : String) (v : Nat)
    (h : y ≠ x) :
    removeHandler (removeHandler s x) x = removeHandler s x
    ∧ ((y, v) ∈ (removeHandler s x).messageHandlers ↔ (y, v) ∈ s.messageHandlers)
    ∧ ((y, v) ∈ (removeHandler s x).connectionStatusHandlers
        ↔ (y, v) ∈ s.connectionStatusHandlers) := by
  refine ⟨?_, ?_, ?_⟩
  · simp [removeHandler, List.filter_filter]
  · simp [removeHandler, List.mem_filter, h]
  · simp [removeHandler, List.mem_filter, h]

/-- C9 witness: a registry holding ids a and b; removing a keeps b. -/
theorem c9_removeHandler_idempotent_witness :
    removeHandler (removeHandler { messageHandlers := [("a", 1), ("b", 2)] } "a") "a"
        = removeHandler { messageHandlers := [("a", 1), ("b", 2)] } "a"
    ∧ (("b", 2) ∈ (removeHandler
          ({ messageHandlers := [("a", 1), ("b", 2)] } : WSService) "a").messageHandlers
        ↔ ("b", 2) ∈ ({ messageHandlers := [("a", 1), ("b", 2)] } : WSService).messageHandlers)
    ∧ (("b", 2) ∈ (removeHandler
          ({ messageHandlers := [("a", 1), ("b", 2)] } : WSService) "a").connectionStatusHandlers
        ↔ ("b", 2) ∈ ({ messageHandlers :=
            [("a", 1), ("b", 2)] } : WSService).connectionStatusHandlers) :=
  c9_removeHandler_idempotent { messageHandlers := [("a", 1), ("b", 2)] } "a" "b" 2
    (by decide)

/-- C10: a frame whose type is outside the handled set — in particular the
type ping heartbeat envelope the server emits every 30 seconds — leaves
the client state unchanged and produces no effect at all: no handler call,
no status notification, no reply frame. -/
theorem c10_unhandled_frame_noop (s : WSService) (t : String) (st : ConnStatus)
    (conn : BridgeConn) (now : Nat) (h : t ∉ handledTypes) :
    onMessage s { msgType := t, status := st } = (s, [])
    ∧ (serverHeartbeatTick conn true now).2
        = [ServerEffect.sendToClient SrvFrame.pingFrame]
    ∧ srvFrameType SrvFrame.pingFrame ∉ handledTypes := by
  simp only [handledTypes, List.mem_cons, List.not_mem_nil, or_false, not_or] at h
  obtain ⟨h1, h2, h3, h4, h5⟩ := h
  refine ⟨?_, rfl, by decide⟩
  simp [onMessage, h1, h2, h3, h4, h5]

/-- C10 witness: the ping heartbeat frame on the initial state. -/
theorem c10_unhandled_frame_noop_witness :
    onMessage emptyService { msgType := "ping", status := ConnStatus.disconnected }
        = (emptyService, [])
    ∧ (serverHeartbeatTick {} true 0).2
        = [ServerEffect.sendToClient SrvFrame.pingFrame]
    ∧ srvFrameType SrvFrame.pingFrame ∉ handledTypes :=
  c10_unhandled_frame_noop emptyService "ping" ConnStatus.disconnected {} 0 (by decide)

/-- The trace of C1: two subscribe calls for distinct sessions while no
socket is open, then the open event. The pair is the final state and the
concatenated effect trace. -/
def c1Trace : WSService × List Effect :=
  let r1 := subscribeToTiming {} "a" 0
  let r2 := subscribeToTiming r1.1 "b" 1
  let r3 := handleOpen r2.1
  (r3.1, r1.2.1 ++ r2.2.1 ++ r3.2)

/-- C1: after subscribing to sessions a and b before the socket is open,
the open event sends only the subscribe frame for b (the current session
id), never the one for a, and `pendingSubscriptions` still holds both
entries afterwards: `handleOpen` does not flush the queue, contradicting
the comment above the flush site and leaving the queue field dead. -/
theorem c1_pending_subscriptions_not_flushed :
    sentSubscribes c1Trace.2 = ["b"]
    ∧ c1Trace.1.pendingSubscriptions = ["a", "b"] := by
  constructor <;> rfl

/-- C2 counterexample: a client frame (here a subscribe control frame)
received by the server bridge produces no effect at all — in particular
nothing is sent to the upstream socket, refuting verbatim forwarding in
the client-to-upstream direction. -/
theorem c2_counterexample_no_upstream_forward :
    (clientOnMessage {} 5
      (some { msgType := "subscribe", status := ConnStatus.disconnected })).2 = [] := by
  rfl

/-- C2 amended: every upstream data frame is forwarded to the client
verbatim (the raw received bytes) exactly once while the client socket is
open, and dropped otherwise; client frames are never forwarded upstream —
the bridge only parses them, and a frame of type pong refreshes the
heartbeat timestamp. -/
theorem c2_forwarding_upstream_to_client_only (data : String) (conn : BridgeConn)
    (now : Nat) (m : Option InMsg) (st : ConnStatus) :
    tslOnMessage true data = [ServerEffect.sendToClient (SrvFrame.raw data)]
    ∧ tslOnMessage false data = []
    ∧ (clientOnMessage conn now m).2 = []
    ∧ (clientOnMessage conn now
        (some { msgType := "pong", status := st })).1.lastPing = now := by
  refine ⟨rfl, rfl, ?_, ?_⟩
  · cases m with
    | none => rfl
    | some mm => simp only [clientOnMessage]; split <;> rfl
  · rfl

/-- C5 counterexample: disconnect on a state with one registered status
observer leaves the status-handler registry non-empty, refuting the part
of the claim that says both halves of the handler registry are cleared. -/
theorem c5_counterexample_status_handlers_survive :
    (disconnect serviceWithObserver).1.connectionStatusHandlers ≠ [] := by
  decide

/-- The effect trace of disconnect, written out: an optional socket close
followed by the status notifications. -/
theorem disconnect_effects (s : WSService) :
    (disconnect s).2
      = (if s.wsPresent then [Effect.closeSocket] else [])
        ++ (if s.connectionStatusHandlers ≠ [] then
              s.connectionStatusHandlers.map
                (fun q => Effect.notify q.1 ConnStatus.disconnected)
            else []) := rfl

/-- C5 amended: disconnect clears both timers, empties the pending
subscription queue, closes and drops the socket when one is present,
clears the message-handler map while leaving the status-handler map
exactly as it was, resets the retry counter, nulls the session id, and
notifies every status observer registered at the time of the call with
status disconnected. -/
theorem c5_disconnect_postconditions (s : WSService) (p : String × Nat)
    (hp : p ∈ s.connectionStatusHandlers) :
    (disconnect s).1.heartbeatActive = false
    ∧ (disconnect s).1.connectTimeoutActive = false
    ∧ (disconnect s).1.pendingSubscriptions = []
    ∧ (disconnect s).1.wsPresent = false
    ∧ (disconnect s).1.wsOpen = false
    ∧ (s.wsPresent = true → Effect.closeSocket ∈ (disconnect s).2)
    ∧ (disconnect s).1.messageHandlers = []
    ∧ (disconnect s).1.connectionStatusHandlers = s.connectionStatusHandlers
    ∧ (disconnect s).1.reconnectAttempts = 0
    ∧ (disconnect s).1.currentSessionId = none
    ∧ Effect.notify p.1 ConnStatus.disconnected ∈ (disconnect s).2 := by
  have hne : s.connectionStatusHandlers ≠ [] := by
    intro hnil
    rw [hnil] at hp
    exact (List.not_mem_nil p) hp
  refine ⟨rfl, rfl, rfl, rfl, rfl, ?_, rfl, rfl, rfl, rfl, ?_⟩
  · intro hw
    rw [disconnect_effects, if_pos hw]
    exact List.mem_append_left _ (List.mem_singleton_self _)
  · rw [disconnect_effects]
    refine List.mem_append_right _ ?_
    rw [if_pos hne]
    exact List.mem_map_of_mem _ hp

/-- C5 witness: a state with one observer and a live socket. -/
theorem c5_disconnect_postconditions_witness :
    (disconnect serviceObserverAndSocket).1.heartbeatActive = false
    ∧ (disconnect serviceObserverAndSocket).1.connectTimeoutActive = false
    ∧ (disconnect serviceObserverAndSocket).1.pendingSubscriptions = []
    ∧ (disconnect serviceObserverAndSocket).1.wsPresent = false
    ∧ (disconnect serviceObserverAndSocket).1.wsOpen = false
    ∧ (serviceObserverAndSocket.wsPresent = true →
        Effect.closeSocket ∈ (disconnect serviceObserverAndSocket).2)
    ∧ (disconnect serviceObserverAndSocket).1.messageHandlers = []
    ∧ (disconnect serviceObserverAndSocket).1.connectionStatusHandlers
        = serviceObserverAndSocket.connectionStatusHandlers
    ∧ (disconnect serviceObserverAndSocket).1.reconnectAttempts = 0
    ∧ (disconnect serviceObserverAndSocket).1.currentSessionId = none
    ∧ Effect.notify ("obs", 7).1 ConnStatus.disconnected
        ∈ (disconnect serviceObserverAndSocket).2 :=
  c5_disconnect_postconditions serviceObserverAndSocket ("obs", 7) (by decide)

/-- C6 counterexample: in the status-observer fan-out, a first handler
that throws prevents delivery to the second handler, refuting the claim
for the status side. -/
theorem c6_counterexample_status_fanout_aborts :
    fanOutStatusHandlers [("a", true), ("b", false)] ≠ ["a", "b"] := by
  decide

/-- C6 amended: the message-handler fan-out wraps each call in try/catch
and therefore always delivers to every registered handler whatever the
throws flags; the status-observer fan-out has no such isolation: it
delivers to a prefix of the registered handlers, and reaches all of them
only when no observer throws. -/
theorem c6_fanout_isolation (hs benign : List (String × Bool))
    (hb : ∀ q ∈ benign, q.2 = false) :
    fanOutMessageHandlers hs = hs.map Prod.fst
    ∧ fanOutStatusHandlers hs
        = (hs.map Prod.fst).take (fanOutStatusHandlers hs).length
    ∧ fanOutStatusHandlers benign = benign.map Prod.fst := by
  refine ⟨?_, ?_, ?_⟩
  · induction hs with
    | nil => rfl
    | cons q rest ih => simp [fanOutMessageHandlers, ih]
  · induction hs with
    | nil => rfl
    | cons q rest ih =>
        have hdef : fanOutStatusHandlers (q :: rest)
            = if q.2 = true then [q.1] else q.1 :: fanOutStatusHandlers rest := rfl
        by_cases hq : q.2 = true
        · rw [hdef, if_pos hq]
          rfl
        · rw [hdef, if_neg hq, List.map_cons, List.length_cons,
            List.take_succ_cons]
          exact congrArg (fun l => q.1 :: l) ih
  · induction benign with
    | nil => rfl
    | cons q rest ih =>
        have hq : q.2 = false := hb q (List.mem_cons_self q rest)
        have ih2 := ih (fun r hr => hb r (List.mem_cons_of_mem q hr))
        simp [fanOutStatusHandlers, hq, ih2]

/-- C6 witness: one throwing then one benign handler on the message side,
two benign handlers on the status side. -/
theorem c6_fanout_isolation_witness :
    fanOutMessageHandlers [("a", true), ("b", false)]
        = ([("a", true), ("b", false)].map Prod.fst)
    ∧ fanOutStatusHandlers [("a", true), ("b", false)]
        = ([("a", true), ("b", false)].map Prod.fst).take
            (fanOutStatusHandlers [("a", true), ("b", false)]).length
    ∧ fanOutStatusHandlers [("c", false), ("d", false)]
        = [("c", false), ("d", false)].map Prod.fst :=
  c6_fanout_isolation [("a", true), ("b", false)] [("c", false), ("d", false)]
    (by decide)

end RealtimeDashboard
